import Mathlib

/-
Verification development for the ds-payment-backend repository.

Shallow embedding of the notification parser, the payment matching engine,
the payment disposition step, the payment-confirmed webhook, the expired-order
cleanup, the email-alias rotation selector and the order-creation amount
normalisation, together with theorems settling the frozen claims about them.

Modelling conventions:
- money is held in exact integer minor units (the source stores integer cents
  and compares them with JavaScript number arithmetic, which is exact on the
  integer ranges involved; the one fractional comparison, the one-percent
  tolerance, is embedded as the equivalent exact integer inequality);
- timestamps are integers (epoch milliseconds; the source compares ISO-8601
  strings whose order agrees with the numeric order);
- SQL tables are lists of rows; a SELECT without ORDER BY returns rows in
  list order, ORDER BY is an explicit stable sort;
- JavaScript truthiness tests on nullable strings and numbers are embedded
  explicitly (null and the empty string and zero are falsy);
- fallible store operations are driven by an explicit failure schedule so
  that the try-catch error path of the rotation selector can be analysed.
-/

namespace DSPayment

-- ===================================
-- NOTIFICATION PARSER (parseInteracEmail, payment-checker service)
-- ===================================

/-- ASCII whitespace, the characters of the regex whitespace class that can
occur in the notification texts considered here. -/
def isSpaceChar (c : Char) : Bool :=
  c = ' ' || c = '\t' || c = '\n' || c = '\r'

/-- The literal pattern occurs at index i of the text. -/
def occursAt (pat cs : List Char) (i : Nat) : Bool :=
  pat.isPrefixOf (cs.drop i)

/-- No newline in the half-open index range from i to j; the dot of a
JavaScript regex without the dotall flag does not match a newline. -/
def noNewlineBetween (cs : List Char) (i j : Nat) : Bool :=
  ((cs.drop i).take (j - i)).all (fun c => !(c = '\n'))

/-- Embeds a case-insensitive regex of shape A dot-star B: some occurrence of
A followed, with no intervening newline, by an occurrence of B. -/
def regexGapTwo (a b cs : List Char) : Bool :=
  (List.range (cs.length + 1)).any (fun i =>
    occursAt a cs i &&
    (List.range (cs.length + 1)).any (fun j =>
      decide (i + a.length ≤ j) && occursAt b cs j &&
        noNewlineBetween cs (i + a.length) j))

/-- Embeds a case-insensitive regex of shape A dot-star B dot-star C. -/
def regexGapThree (a b c cs : List Char) : Bool :=
  (List.range (cs.length + 1)).any (fun i =>
    occursAt a cs i &&
    (List.range (cs.length + 1)).any (fun j =>
      decide (i + a.length ≤ j) && occursAt b cs j &&
        noNewlineBetween cs (i + a.length) j &&
        (List.range (cs.length + 1)).any (fun k =>
          decide (j + b.length ≤ k) && occursAt c cs k &&
            noNewlineBetween cs (j + b.length) k)))

/-- The five classification patterns of parseInteracEmail, applied to the
lower-cased text (all the source patterns carry the case-insensitive flag). -/
def isInteracText (low : List Char) : Bool :=
  regexGapTwo ("interac".data) ("e-transfer".data) low ||
  regexGapTwo ("interac".data) ("deposit".data) low ||
  regexGapTwo ("e-transfer".data) ("deposit".data) low ||
  regexGapThree ("sent".data) ("money".data) ("interac".data) low ||
  regexGapThree ("auto".data) ("deposit".data) ("complete".data) low

/-- Leading digit run of the text. -/
def digitRun (cs : List Char) : List Char := cs.takeWhile Char.isDigit

/-- Choices of the regex piece digit-one-to-three in backtracking order:
the greedy engine first takes up to three leading digits, then on
backtracking fewer, never zero. Each choice pairs the consumed digits with
the remaining text. -/
def dOneChoices (cs : List Char) : List (List Char × List Char) :=
  let k := min 3 (digitRun cs).length
  (List.range k).map (fun j => (cs.take (k - j), cs.drop (k - j)))

/-- Choices of the starred regex piece comma-digit-digit-digit in
backtracking order: the maximal group sequence first, down to zero groups. -/
def commaGroupChoices : List Char → List (List Char × List Char)
  | ',' :: d1 :: d2 :: d3 :: rest =>
    if d1.isDigit && d2.isDigit && d3.isDigit then
      (commaGroupChoices rest).map (fun p => (',' :: d1 :: d2 :: d3 :: p.1, p.2)) ++
        [([], ',' :: d1 :: d2 :: d3 :: rest)]
    else [([], ',' :: d1 :: d2 :: d3 :: rest)]
  | cs => [([], cs)]

/-- Choices of the optional regex piece dot-digit-digit in backtracking
order: present (when it parses) before absent. -/
def decimalChoices : List Char → List (List Char × List Char)
  | '.' :: d1 :: d2 :: rest =>
    if d1.isDigit && d2.isDigit then
      (['.', d1, d2], rest) :: [([], '.' :: d1 :: d2 :: rest)]
    else [([], '.' :: d1 :: d2 :: rest)]
  | cs => [([], cs)]

/-- All captures of the amount capture group, in the order a backtracking
regex engine tries them at a fixed start position, each with the text that
remains after the capture. -/
def numberCandidates (cs : List Char) : List (List Char × List Char) :=
  (dOneChoices cs).flatMap (fun p =>
    (commaGroupChoices p.2).flatMap (fun q =>
      (decimalChoices q.2).map (fun r => (p.1 ++ q.1 ++ r.1, r.2))))

/-- Greedy first capture of the amount group; used where everything after
the capture group in the pattern is optional, so the first backtracking
choice always succeeds. -/
def greedyNumber (cs : List Char) : Option (List Char) :=
  (numberCandidates cs).head?.map Prod.fst

/-- Amount pattern 1: dollar sign, optional whitespace, then the capture
group, with only optional material after it. The scan tries every dollar
sign from the left, as the regex engine tries every start position. -/
def scanDollar : List Char → Option (List Char)
  | [] => none
  | '$' :: rest =>
    match greedyNumber (rest.dropWhile isSpaceChar) with
    | some cap => some cap
    | none => scanDollar rest
  | _ :: rest => scanDollar rest

/-- After the capture of amount pattern 2 the regex requires optional
whitespace and then CAD, CDN or dollar (with optional final s); the text is
already lower-cased. -/
def currencyWordAt (rest : List Char) : Bool :=
  let r := rest.dropWhile isSpaceChar
  ("cad".data).isPrefixOf r || ("cdn".data).isPrefixOf r ||
    ("dollar".data).isPrefixOf r

/-- Amount pattern 2: the capture group followed by a currency word. At each
start position the backtracking choices of the capture are tried in engine
order until the currency word fits after the capture. -/
def scanNumberCurrency : List Char → Option (List Char)
  | [] => none
  | c :: rest =>
    match (numberCandidates (c :: rest)).find? (fun p => currencyWordAt p.2) with
    | some p => some p.1
    | none => scanNumberCurrency rest

/-- The separator of amount patterns 3 and 4: one or more colons or
whitespace characters, an optional dollar sign, optional whitespace, then
the capture group. The maximal class run is equivalent to the backtracking
search because a shorter run leaves a class character where a digit or a
dollar sign is required. -/
def sepThenNumber (t : List Char) : Option (List Char) :=
  let t1 := t.dropWhile (fun c => c = ':' || isSpaceChar c)
  if t1.length = t.length then none
  else
    match t1 with
    | '$' :: r => greedyNumber (r.dropWhile isSpaceChar)
    | _ => greedyNumber t1

/-- Amount patterns 3 and 4: a label (amount, deposited) then the separator
and the capture group; every occurrence of the label is tried from the
left. -/
def scanLabelledNumber (label : List Char) : List Char → Option (List Char)
  | [] => none
  | c :: rest =>
    if label.isPrefixOf (c :: rest) then
      match sepThenNumber ((c :: rest).drop label.length) with
      | some cap => some cap
      | none => scanLabelledNumber label rest
    else scanLabelledNumber label rest

/-- Decimal value of a digit list. -/
def natOfDigits (ds : List Char) : Nat :=
  ds.foldl (fun n c => 10 * n + (c.toNat - '0'.toNat)) 0

/-- Embeds parseFloat of the capture with commas removed, followed by
multiplication by 100 and Math.round. The capture grammar yields an integer
digit group and either no decimals or exactly two, so the rounding of the
source is exact and equals this integer computation. -/
def captureCents (cap : List Char) : Nat :=
  let noComma := cap.filter (fun c => !(c = ','))
  let ip := noComma.takeWhile (fun c => !(c = '.'))
  let fp := (noComma.dropWhile (fun c => !(c = '.'))).drop 1
  natOfDigits ip * 100 + natOfDigits fp

/-- The amount extraction loop of parseInteracEmail: the four patterns are
tried in source order and the first pattern that matches anywhere in the
text supplies the capture. -/
def extractAmountCents (low : List Char) : Option Nat :=
  match scanDollar low with
  | some cap => some (captureCents cap)
  | none =>
    match scanNumberCurrency low with
    | some cap => some (captureCents cap)
    | none =>
      match scanLabelledNumber ("amount".data) low with
      | some cap => some (captureCents cap)
      | none => (scanLabelledNumber ("deposited".data) low).map captureCents

/-- The classification and amount fields of the parser result. The sender,
name, reference and transaction extractors of the source are independent of
these fields and are not needed by any claim about amounts. -/
structure ParsedEmail where
  amountCents : Option Nat
  isInterac : Bool
deriving DecidableEq

/-- Embeds the classification and amount extraction of parseInteracEmail.
The source applies case-insensitive regexes to the raw text; here the text
is lower-cased once and the patterns are written in lower case, which is
equivalent. When no classification pattern fires the parser returns with
all fields empty and the amount loop is never reached. -/
def parseInteracEmail (body : String) : ParsedEmail :=
  let low := body.data.map Char.toLower
  if isInteracText low then
    { isInterac := true, amountCents := extractAmountCents low }
  else
    { isInterac := false, amountCents := none }

-- ===================================
-- ORDER LEDGER
-- ===================================

/-- Order status values of the orders table. -/
inductive OrderStatus
  | pending
  | awaiting_payment
  | processing
  | paid
  | completed
  | cancelled
  | refunded
deriving DecidableEq

/-- The two open statuses used by every matching query. -/
def isOpenStatus (st : OrderStatus) : Bool :=
  st = OrderStatus.pending || st = OrderStatus.awaiting_payment

/-- A row of the orders table; the columns the claims touch. -/
structure Order where
  id : Nat
  reference_number : String
  customer_email : String
  amount_cents : Nat
  status : OrderStatus
  created_at : Int
  updated_at : Int
  paid_at : Option Int := none
deriving DecidableEq

/-- The orders table. -/
structure Ledger where
  orders : List Order
deriving DecidableEq

/-- ORDER BY created_at DESC as a stable sort. -/
def byCreatedDesc (l : List Order) : List Order :=
  List.insertionSort (fun a b => b.created_at ≤ a.created_at) l

/-- SELECT by reference_number restricted to the open statuses; db.get
returns the first row. -/
def sqlFindByReferenceOpen (db : Ledger) (ref : String) : Option Order :=
  db.orders.find? (fun o => decide (o.reference_number = ref) && isOpenStatus o.status)

/-- SELECT by amount and customer email in the open statuses, most recent
first, limit one. -/
def sqlFindByAmountEmailOpen (db : Ledger) (c : Nat) (email : String) : Option Order :=
  (byCreatedDesc (db.orders.filter (fun o =>
    decide (o.amount_cents = c) && decide (o.customer_email = email) &&
      isOpenStatus o.status))).head?

/-- Predicate of the recency tier: same amount, open status, created at or
after the cutoff. -/
def recentAmountPred (c : Nat) (since : Int) (o : Order) : Bool :=
  decide (o.amount_cents = c) && isOpenStatus o.status && decide (since ≤ o.created_at)

/-- SELECT by amount in the open statuses created at or after the cutoff,
most recent first, limit one. -/
def sqlFindByAmountRecentOpen (db : Ledger) (c : Nat) (since : Int) : Option Order :=
  (byCreatedDesc (db.orders.filter (recentAmountPred c since))).head?

/-- SELECT COUNT with the same predicate as the recency tier. -/
def sqlCountByAmountRecentOpen (db : Ledger) (c : Nat) (since : Int) : Nat :=
  (db.orders.filter (recentAmountPred c since)).length

/-- SELECT by amount in the open statuses, most recent first, limit one. -/
def sqlFindByAmountOpen (db : Ledger) (c : Nat) : Option Order :=
  (byCreatedDesc (db.orders.filter (fun o =>
    decide (o.amount_cents = c) && isOpenStatus o.status))).head?

-- ===================================
-- MATCHING ENGINE (matchPaymentToOrder)
-- ===================================

/-- The fields of the parsed payment used by matching and disposition. -/
structure PaymentData where
  amountCents : Option Nat
  senderEmail : Option String := none
  senderName : Option String := none
  referenceCode : Option String := none
deriving DecidableEq

/-- JavaScript truthiness of a nullable string: null and the empty string
are falsy. -/
def truthyStr : Option String → Bool
  | none => false
  | some s => decide (s ≠ "")

/-- JavaScript truthiness of a nullable number: null and zero are falsy. -/
def truthyNat : Option Nat → Bool
  | none => false
  | some n => decide (n ≠ 0)

/-- The result record of the matching engine. -/
structure MatchResult where
  order : Option Order
  confidence : Nat
  matchType : String
  count : Option Nat := none
deriving DecidableEq

/-- The one-percent amount tolerance of the reference tier: embeds
Math.abs of amount_cents minus amountCents at most amount_cents times 0.01,
computed from the amount of the order, in exact integer arithmetic. -/
def withinOnePercent (orderCents notifCents : Nat) : Bool :=
  decide (100 * Nat.dist orderCents notifCents ≤ orderCents)

/-- Tier 1: reference code plus amount, confidence 100. A null parsed
amount is coerced to zero by the JavaScript subtraction. -/
def matchTierRef (db : Ledger) (p : PaymentData) : Option MatchResult :=
  if truthyStr p.referenceCode then
    match sqlFindByReferenceOpen db (p.referenceCode.getD "") with
    | some o =>
      if withinOnePercent o.amount_cents (p.amountCents.getD 0) then
        some { order := some o, confidence := 100, matchType := "reference_and_amount" }
      else none
    | none => none
  else none

/-- Tier 2: amount plus sender email, confidence 90. -/
def matchTierEmail (db : Ledger) (p : PaymentData) : Option MatchResult :=
  if truthyStr p.senderEmail && truthyNat p.amountCents then
    match sqlFindByAmountEmailOpen db (p.amountCents.getD 0) (p.senderEmail.getD "") with
    | some o => some { order := some o, confidence := 90, matchType := "email_and_amount" }
    | none => none
  else none

/-- Tier 3: amount within the last thirty minutes, the cutoff being now
minus thirty minutes of milliseconds; a unique candidate gives confidence
70, several candidates give the ambiguity result with a null order and
confidence 50. -/
def matchTierRecent (db : Ledger) (now : Int) (p : PaymentData) : Option MatchResult :=
  if truthyNat p.amountCents then
    match sqlFindByAmountRecentOpen db (p.amountCents.getD 0) (now - 30 * 60 * 1000) with
    | some o =>
      if sqlCountByAmountRecentOpen db (p.amountCents.getD 0) (now - 30 * 60 * 1000) = 1 then
        some { order := some o, confidence := 70, matchType := "amount_and_time" }
      else
        some { order := none, confidence := 50, matchType := "multiple_matches",
               count := some (sqlCountByAmountRecentOpen db (p.amountCents.getD 0)
                 (now - 30 * 60 * 1000)) }
    | none => none
  else none

/-- Tier 4: amount only, confidence 50. -/
def matchTierAmount (db : Ledger) (p : PaymentData) : Option MatchResult :=
  if truthyNat p.amountCents then
    match sqlFindByAmountOpen db (p.amountCents.getD 0) with
    | some o => some { order := some o, confidence := 50, matchType := "amount_only" }
    | none => none
  else none

/-- The matching engine: the four tiers in strict source order, each early
return of the source being the first tier that yields a result. -/
def matchPaymentToOrder (db : Ledger) (now : Int) (p : PaymentData) : MatchResult :=
  match matchTierRef db p with
  | some r => r
  | none =>
    match matchTierEmail db p with
    | some r => r
    | none =>
      match matchTierRecent db now p with
      | some r => r
      | none =>
        match matchTierAmount db p with
        | some r => r
        | none => { order := none, confidence := 0, matchType := "no_match" }

-- ===================================
-- PAYMENT DISPOSITION (processPayment)
-- ===================================

/-- Observable store writes and notifications of processPayment. -/
inductive PayEffect
  | updateOrderPaid (orderId : Nat)
  | insertEvent (orderId : Nat) (eventType : String)
  | insertUnmatched (reason : String)
  | adminAlert (alertType : String) (title : String)
  | sendConfirmation (email : String)
deriving DecidableEq

/-- Result of a processPayment run: the orders table afterwards, the writes
and notifications in order, and the returned flags. -/
structure ProcessOutcome where
  ledger : Ledger
  effects : List PayEffect
  success : Bool
  needsReview : Bool := false
  unmatched : Bool := false
deriving DecidableEq

/-- The unconditional UPDATE of the auto-confirm branch: every row with the
given id becomes paid, whatever status it held. -/
def setOrderPaid (db : Ledger) (oid : Nat) (now : Int) : Ledger :=
  { orders := db.orders.map (fun o =>
      if o.id = oid then
        { o with status := OrderStatus.paid, paid_at := some now, updated_at := now }
      else o) }

/-- The no-match branch: a row in unmatched_payments whose reason is the
match type, then an error alert to the operator; the orders table is not
touched. -/
def unmatchedOutcome (db : Ledger) (mr : MatchResult) : ProcessOutcome :=
  { ledger := db,
    effects := [PayEffect.insertUnmatched mr.matchType,
                PayEffect.adminAlert "error" "Unmatched Payment"],
    success := false, unmatched := true }

/-- The branch structure of processPayment applied to the match result: the
branch on a resolved order with confidence at least 70 auto-confirms, the
branch on a resolved order with confidence at least 50 records a review
request, and everything else, including every result whose order is null,
is recorded as an unmatched payment. -/
def processPaymentWith (emailEnabled : Bool) (db : Ledger) (now : Int)
    (mr : MatchResult) : ProcessOutcome :=
  match mr.order with
  | some o =>
    if 70 ≤ mr.confidence then
      { ledger := setOrderPaid db o.id now,
        effects := [PayEffect.updateOrderPaid o.id,
                    PayEffect.insertEvent o.id "payment_auto_matched"] ++
          (if emailEnabled && decide (o.customer_email ≠ "") then
            [PayEffect.sendConfirmation o.customer_email]
          else []),
        success := true }
    else if 50 ≤ mr.confidence then
      { ledger := db,
        effects := [PayEffect.insertEvent o.id "payment_needs_review",
                    PayEffect.adminAlert "warning" "Payment Needs Review"],
        success := false, needsReview := true }
    else unmatchedOutcome db mr
  | none => unmatchedOutcome db mr

/-- Embeds processPayment: the match result is computed once and dispatched
on as in the source. -/
def processPayment (emailEnabled : Bool) (db : Ledger) (now : Int)
    (p : PaymentData) : ProcessOutcome :=
  processPaymentWith emailEnabled db now (matchPaymentToOrder db now p)

-- ===================================
-- PAYMENT-CONFIRMED WEBHOOK (orders routes)
-- ===================================

/-- The request fields of the payment-confirmed webhook that drive the
lookup and the status write. -/
structure WebhookBody where
  reference_number : Option String := none
  order_id : Option Nat := none
  confirmed_at : Option Int := none
deriving DecidableEq

/-- Webhook response summary. -/
inductive WebhookResp
  | notFound
  | confirmed (orderId : Nat)
deriving DecidableEq

/-- The webhook lookup: by reference when the field is truthy, else by id
when that field is truthy, with no restriction at all on the status of the
order. -/
def webhookFindOrder (db : Ledger) (b : WebhookBody) : Option Order :=
  if truthyStr b.reference_number then
    db.orders.find? (fun o => decide (o.reference_number = b.reference_number.getD ""))
  else if truthyNat b.order_id then
    db.orders.find? (fun o => decide (o.id = b.order_id.getD 0))
  else none

/-- Embeds the payment-confirmed webhook handler: when no order is found the
payment is logged as unmatched and a 404 returned; when an order is found
its row is set to paid by an unconditional UPDATE keyed on the id alone.
The metadata merge and the outbound notifications of the source do not
touch the modelled columns and are elided. -/
def paymentConfirmed (db : Ledger) (now : Int) (b : WebhookBody) :
    Ledger × WebhookResp :=
  match webhookFindOrder db b with
  | none => (db, WebhookResp.notFound)
  | some o =>
    ({ orders := db.orders.map (fun x =>
        if x.id = o.id then
          { x with status := OrderStatus.paid,
                   paid_at := some (b.confirmed_at.getD now), updated_at := now }
        else x) },
     WebhookResp.confirmed o.id)

-- ===================================
-- EXPIRED ORDER CLEANUP (scheduler service)
-- ===================================

/-- Embeds cleanupExpiredOrders: one UPDATE that cancels exactly the rows
still pending whose creation time is before now minus twenty-four hours,
and the count of changed rows that the function returns. -/
def cleanupExpiredOrders (now : Int) (db : Ledger) : Ledger × Nat :=
  ({ orders := db.orders.map (fun o =>
      if o.status = OrderStatus.pending ∧ o.created_at < now - 24 * 60 * 60 * 1000 then
        { o with status := OrderStatus.cancelled, updated_at := now }
      else o) },
   (db.orders.filter (fun o =>
      decide (o.status = OrderStatus.pending) &&
        decide (o.created_at < now - 24 * 60 * 60 * 1000))).length)

-- ===================================
-- ALIAS ROTATION SELECTOR (rotation service)
-- ===================================

/-- Rotation threshold of the rotation service. -/
def ORDERS_PER_ROTATION : Nat := 20

/-- A row of the email_aliases table. -/
structure EmailAlias where
  id : Nat
  alias_email : String
  bank_name : Option String := none
  bank_slug : Option String := none
  active : Bool
  last_used_at : Option Int := none
deriving DecidableEq

/-- The singleton rotation_state row. -/
structure RotationState where
  current_alias_id : Option Nat
  order_count : Nat
deriving DecidableEq

/-- The backing store of the rotation selector. -/
structure RotationStore where
  rotation_state : Option RotationState
  email_aliases : List EmailAlias
deriving DecidableEq

/-- The environment variables the selector reads. -/
structure RotationEnv where
  defaultPaymentEmail : String
  recipientName : String
deriving DecidableEq

/-- Which of the five store operations of getNextPaymentEmail raises; the
catch block sees the first raised one. -/
structure FailureSpec where
  failGetState : Bool
  failInsertState : Bool
  failGetAliases : Bool
  failUpdateState : Bool
  failTouchAlias : Bool
deriving DecidableEq

/-- The schedule on which every store operation succeeds. -/
def noFailure : FailureSpec :=
  { failGetState := false, failInsertState := false, failGetAliases := false,
    failUpdateState := false, failTouchAlias := false }

/-- The assignment record returned to order creation; the catch and
no-alias fallbacks leave the last two fields unset. -/
structure Assignment where
  email : String
  name : String
  alias_id : Option Nat
  bank_slug : Option String := none
  orders_until_rotation : Option Nat := none
deriving DecidableEq

/-- The fallback assignment built from the environment defaults. -/
def defaultAssignment (env : RotationEnv) : Assignment :=
  { email := env.defaultPaymentEmail, name := env.recipientName, alias_id := none }

/-- SELECT of the active aliases ordered by ascending id, the rotation
ring. -/
def activeAliasesById (l : List EmailAlias) : List EmailAlias :=
  List.insertionSort (fun a b => a.id ≤ b.id) (l.filter (fun a => a.active))

/-- The body of getNextPaymentEmail after the rotation state is in hand.
The falsy test of the source on the current alias id treats both null and
zero as absent. The rotation branch computes findIndex, which is minus one
when the current alias is no longer in the ring, adds one and wraps by the
ring size. A current alias missing from the ring falls back to the first
ring element with the counter reset. The counter is incremented after these
checks and the new pair is persisted, then the last-used stamp of the
chosen alias is written. -/
def getNextPaymentEmailCore (env : RotationEnv) (now : Int) (fs : FailureSpec)
    (s : RotationStore) (st : RotationState) : Assignment × RotationStore :=
  if fs.failGetAliases then (defaultAssignment env, s)
  else
    match activeAliasesById s.email_aliases with
    | [] => (defaultAssignment env, s)
    | a0 :: rest =>
      let aliases := a0 :: rest
      let cid0 : Nat :=
        match st.current_alias_id with
        | none => a0.id
        | some 0 => a0.id
        | some c => c
      let step : Nat × Nat :=
        if ORDERS_PER_ROTATION ≤ st.order_count then
          let currentIndex : Int :=
            match aliases.findIdx? (fun a => a.id = cid0) with
            | some i => (i : Int)
            | none => -1
          let nextIndex : Nat := ((currentIndex + 1) % (aliases.length : Int)).toNat
          ((aliases.getD nextIndex a0).id, 0)
        else (cid0, st.order_count)
      let chosen : EmailAlias × Nat × Nat :=
        match aliases.find? (fun a => a.id = step.1) with
        | some a => (a, step.1, step.2)
        | none => (a0, a0.id, 0)
      let cnt3 := chosen.2.2 + 1
      if fs.failUpdateState then (defaultAssignment env, s)
      else
        let newState : RotationState :=
          { current_alias_id := some chosen.2.1, order_count := cnt3 }
        let s2 := { s with rotation_state := some newState }
        if fs.failTouchAlias then (defaultAssignment env, s2)
        else
          let s3 := { s2 with email_aliases := s2.email_aliases.map (fun a =>
            if a.id = chosen.2.1 then { a with last_used_at := some now } else a) }
          ({ email := chosen.1.alias_email,
             name := chosen.1.bank_name.getD env.recipientName,
             alias_id := some chosen.1.id,
             bank_slug := chosen.1.bank_slug,
             orders_until_rotation := some (ORDERS_PER_ROTATION - cnt3) }, s3)

/-- The row inserted when the rotation_state singleton is missing. -/
def initialRotationState : RotationState :=
  { current_alias_id := none, order_count := 0 }

/-- Embeds getNextPaymentEmail. The whole body sits in a try block whose
catch returns the default assignment, so a raised store operation ends the
call with the default and whatever writes already happened kept. A missing
rotation_state row is first inserted with a null alias and a zero count. -/
def getNextPaymentEmail (env : RotationEnv) (now : Int) (fs : FailureSpec)
    (s : RotationStore) : Assignment × RotationStore :=
  if fs.failGetState then (defaultAssignment env, s)
  else
    match s.rotation_state with
    | none =>
      if fs.failInsertState then (defaultAssignment env, s)
      else
        getNextPaymentEmailCore env now fs
          { s with rotation_state := some initialRotationState }
          initialRotationState
    | some st => getNextPaymentEmailCore env now fs s st

-- ===================================
-- ORDER CREATION AMOUNT (orders routes)
-- ===================================

/-- Embeds the amount normalisation of order creation. The request amount is
modelled in exact hundredths, h being one hundred times the requested
amount, which is exact for money values with at most two decimals. The
source computes parseInt of the amount, which is the integer part h / 100,
and when that is below one hundred replaces it by Math.round of the amount
times 100, which is h itself. -/
def orderAmountCents (h : Nat) : Nat :=
  if h / 100 < 100 then h else h / 100

-- ===================================
-- CONCRETE FIXTURES FOR WITNESSES AND COUNTEREXAMPLES
-- ===================================

/-- Environment defaults used by the rotation fixtures. -/
def rotEnv : RotationEnv :=
  { defaultPaymentEmail := "default@example.com", recipientName := "DS Payment" }

/-- First active alias of the fixture ring. -/
def aliasFixA : EmailAlias :=
  { id := 1, alias_email := "payments-a@example.com", active := true }

/-- Second active alias of the fixture ring. -/
def aliasFixB : EmailAlias :=
  { id := 2, alias_email := "payments-b@example.com", active := true }

/-- Third active alias of the fixture ring. -/
def aliasFixC : EmailAlias :=
  { id := 3, alias_email := "payments-c@example.com", active := true }

/-- A three-alias active ring. -/
def ringFix : List EmailAlias := [aliasFixA, aliasFixB, aliasFixC]

/-- Rotation store pointing at the first alias with nineteen orders counted. -/
def rotStoreAt19 : RotationStore :=
  { rotation_state := some { current_alias_id := some 1, order_count := 19 },
    email_aliases := ringFix }

/-- Rotation store pointing at the first alias with twenty orders counted. -/
def rotStoreAt20 : RotationStore :=
  { rotation_state := some { current_alias_id := some 1, order_count := 20 },
    email_aliases := ringFix }

/-- Rotation store pointing at the first alias with five orders counted. -/
def rotStoreAt5 : RotationStore :=
  { rotation_state := some { current_alias_id := some 1, order_count := 5 },
    email_aliases := ringFix }

/-- Rotation store whose current alias id 99 is absent from the ring. -/
def rotStoreStale : RotationStore :=
  { rotation_state := some { current_alias_id := some 99, order_count := 7 },
    email_aliases := ringFix }

/-- Failure schedule on which only the alias last-used stamp write raises. -/
def fsTouchOnly : FailureSpec :=
  { failGetState := false, failInsertState := false, failGetAliases := false,
    failUpdateState := false, failTouchAlias := true }

/-- Failure schedule on which the initial rotation-state read raises. -/
def fsGetStateOnly : FailureSpec :=
  { failGetState := true, failInsertState := false, failGetAliases := false,
    failUpdateState := false, failTouchAlias := false }

/-- Open order carrying the reference of the spec example, amount 300000. -/
def ordRef : Order :=
  { id := 1, reference_number := "ORD-AB12CD", customer_email := "cust@example.com",
    amount_cents := 300000, status := OrderStatus.pending,
    created_at := 500000, updated_at := 500000 }

/-- Ledger holding only the referenced order. -/
def dbRef : Ledger := { orders := [ordRef] }

/-- Notification with the spec example reference and an amount one percent
under the order amount. -/
def payRef : PaymentData :=
  { amountCents := some 299700, referenceCode := some "ORD-AB12CD" }

/-- First of two equal-amount open orders created inside the window. -/
def ordEqualA : Order :=
  { id := 11, reference_number := "ORD-EQ1", customer_email := "a@example.com",
    amount_cents := 500000, status := OrderStatus.pending,
    created_at := 700000, updated_at := 700000 }

/-- Second of two equal-amount open orders created inside the window. -/
def ordEqualB : Order :=
  { id := 12, reference_number := "ORD-EQ2", customer_email := "b@example.com",
    amount_cents := 500000, status := OrderStatus.pending,
    created_at := 400000, updated_at := 400000 }

/-- Ledger with two equal-amount recent open orders. -/
def dbTwoEqual : Ledger := { orders := [ordEqualA, ordEqualB] }

/-- Notification carrying only the shared amount, no reference, no email. -/
def payAmountOnly : PaymentData := { amountCents := some 500000 }

/-- Old open order outside the thirty-minute window. -/
def ordStale : Order :=
  { id := 21, reference_number := "ORD-ST", customer_email := "s@example.com",
    amount_cents := 7700, status := OrderStatus.pending,
    created_at := 0, updated_at := 0 }

/-- Ledger with only the stale order. -/
def dbStale : Ledger := { orders := [ordStale] }

/-- Notification matching the stale order by amount alone. -/
def payStale : PaymentData := { amountCents := some 7700 }

/-- An order already completed. -/
def ordCompleted : Order :=
  { id := 5, reference_number := "ORD-C", customer_email := "c@example.com",
    amount_cents := 100, status := OrderStatus.completed,
    created_at := 0, updated_at := 0 }

/-- Ledger with only the completed order. -/
def dbCompleted : Ledger := { orders := [ordCompleted] }

/-- Webhook body referencing the completed order. -/
def wbConfirm : WebhookBody := { reference_number := some "ORD-C" }

/-- Pending order older than twenty-four hours. -/
def ordOldPending : Order :=
  { id := 31, reference_number := "ORD-OP", customer_email := "p@example.com",
    amount_cents := 5000, status := OrderStatus.pending,
    created_at := 0, updated_at := 0 }

/-- Awaiting-payment order of the same age. -/
def ordOldAwaiting : Order :=
  { id := 32, reference_number := "ORD-OA", customer_email := "q@example.com",
    amount_cents := 5000, status := OrderStatus.awaiting_payment,
    created_at := 0, updated_at := 0 }

/-- Ledger holding the two old orders. -/
def dbCleanup : Ledger := { orders := [ordOldPending, ordOldAwaiting] }

/-- Transfer text with a four-digit amount written without separators. -/
def interacUngrouped : String := "interac e-transfer amount: $1234.56"

/-- The same transfer text with the thousands separator present. -/
def interacGrouped : String := "interac e-transfer amount: $1,234.56"



theorem core_success_state (env : RotationEnv) (now : Int) (s : RotationStore)
    (st : RotationState) (a0 : EmailAlias) (rest : List EmailAlias)
    (h : activeAliasesById s.email_aliases = a0 :: rest) :
    ∃ a cnt, ((getNextPaymentEmailCore env now noFailure s st).2.rotation_state =
        some { current_alias_id := some a, order_count := cnt }) ∧
      cnt ≤ ORDERS_PER_ROTATION := by
  unfold getNextPaymentEmailCore
  rw [h]
  simp only [noFailure]
  split
  · next hfail => exact absurd hfail (by simp)
  · dsimp only
    by_cases hth : ORDERS_PER_ROTATION ≤ st.order_count
    · simp only [if_pos hth]
      split
      · exact ⟨_, _, rfl, by simp [ORDERS_PER_ROTATION]⟩
      · exact ⟨_, _, rfl, by simp [ORDERS_PER_ROTATION]⟩
    · simp only [if_neg hth]
      split
      · exact ⟨_, _, rfl, by simp [ORDERS_PER_ROTATION] at hth ⊢; omega⟩
      · exact ⟨_, _, rfl, by simp [ORDERS_PER_ROTATION]⟩

/-- Claim C7: whenever the rotation state points at an alias that is absent
from the nonempty active ring (a positive id, as every stored alias id is),
the very next selection returns the first ring element and persists that
alias with the counter reset to one, independently of whether the counter
had reached the rotation threshold; no error path is taken. -/
theorem rotation_self_healing (env : RotationEnv) (now : Int) (s : RotationStore)
    (cid cnt : Nat) (a0 : EmailAlias) (rest : List EmailAlias)
    (hstate : s.rotation_state = some { current_alias_id := some cid, order_count := cnt })
    (hcid : cid ≠ 0)
    (hring : activeAliasesById s.email_aliases = a0 :: rest)
    (hmiss : ∀ a ∈ a0 :: rest, a.id ≠ cid) :
    (getNextPaymentEmail env now noFailure s).1.alias_id = some a0.id ∧
    (getNextPaymentEmail env now noFailure s).1.email = a0.alias_email ∧
    (getNextPaymentEmail env now noFailure s).2.rotation_state =
      some { current_alias_id := some a0.id, order_count := 1 } := by
  obtain ⟨n, rfl⟩ := Nat.exists_eq_succ_of_ne_zero hcid
  have hfind : (a0 :: rest).find? (fun a => decide (a.id = n + 1)) = none :=
    List.find?_eq_none.mpr (fun x hx => by simpa using hmiss x hx)
  have hfind0 : (a0 :: rest).find? (fun a => decide (a.id = a0.id)) = some a0 :=
    List.find?_cons_of_pos _ (by simp)
  have hidx : (a0 :: rest).findIdx? (fun a => decide (a.id = n + 1)) = none :=
    List.findIdx?_eq_none_iff.mpr (fun x hx => by simpa using hmiss x hx)
  unfold getNextPaymentEmail getNextPaymentEmailCore
  rw [hstate, hring]
  simp only [noFailure]
  by_cases hth : ORDERS_PER_ROTATION ≤ cnt
  · simp only [if_pos hth, hidx]
    norm_num [hfind0]
  · simp only [if_neg hth, hfind]
    norm_num [hfind0]

lemma core_failure_default (env : RotationEnv) (now : Int) (fs : FailureSpec)
    (s : RotationStore) (st : RotationState)
    (h : fs.failGetAliases = true ∨ fs.failUpdateState = true ∨ fs.failTouchAlias = true) :
    (getNextPaymentEmailCore env now fs s st).1 = defaultAssignment env := by
  unfold getNextPaymentEmailCore
  by_cases h3 : fs.failGetAliases = true
  · simp [h3]
  · have h3f : fs.failGetAliases = false := by revert h3; cases fs.failGetAliases <;> simp
    simp only [h3f, Bool.false_eq_true, if_false]
    split
    · rfl
    · by_cases h4 : fs.failUpdateState = true
      · simp [h4]
      · have h4f : fs.failUpdateState = false := by
          revert h4; cases fs.failUpdateState <;> simp
        have h5 : fs.failTouchAlias = true := by
          rcases h with h | h | h
          · rw [h3f] at h; cases h
          · rw [h4f] at h; cases h
          · exact h
        simp [h4f, h5]

/-- Claim C9, amended: every store failure inside getNextPaymentEmail is
caught and the statically configured default assignment with a null alias id
is returned instead of an error; however writes performed before the failing
operation remain, so the persisted rotation state is unchanged only when the
failure strikes before the rotation-state update (the counterexample shows a
failure of the later alias last-used stamp keeping the new state). -/
theorem rotation_failure_returns_default (env : RotationEnv) (now : Int)
    (fs : FailureSpec) (s : RotationStore)
    (h : fs.failGetState = true ∨ fs.failGetAliases = true ∨ fs.failUpdateState = true ∨
      fs.failTouchAlias = true ∨ (s.rotation_state = none ∧ fs.failInsertState = true)) :
    (getNextPaymentEmail env now fs s).1 = defaultAssignment env := by
  unfold getNextPaymentEmail
  by_cases h1 : fs.failGetState = true
  · simp [h1]
  · have h1f : fs.failGetState = false := by revert h1; cases fs.failGetState <;> simp
    simp only [h1f, Bool.false_eq_true, if_false]
    have h' : fs.failGetAliases = true ∨ fs.failUpdateState = true ∨
        fs.failTouchAlias = true ∨ (s.rotation_state = none ∧ fs.failInsertState = true) := by
      rcases h with h | h | h | h | h
      · rw [h1f] at h; cases h
      · exact Or.inl h
      · exact Or.inr (Or.inl h)
      · exact Or.inr (Or.inr (Or.inl h))
      · exact Or.inr (Or.inr (Or.inr h))
    cases hs : s.rotation_state with
    | none =>
      by_cases h2 : fs.failInsertState = true
      · simp [h2]
      · have h2f : fs.failInsertState = false := by
          revert h2; cases fs.failInsertState <;> simp
        have hcore : fs.failGetAliases = true ∨ fs.failUpdateState = true ∨
            fs.failTouchAlias = true := by
          rcases h' with h | h | h | ⟨_, hbad⟩
          · exact Or.inl h
          · exact Or.inr (Or.inl h)
          · exact Or.inr (Or.inr h)
          · rw [h2f] at hbad; cases hbad
        simp only [h2f, Bool.false_eq_true, if_false]
        exact core_failure_default env now fs _ _ hcore
    | some st =>
      have hcore : fs.failGetAliases = true ∨ fs.failUpdateState = true ∨
          fs.failTouchAlias = true := by
        rcases h' with h | h | h | ⟨hnone, _⟩
        · exact Or.inl h
        · exact Or.inr (Or.inl h)
        · exact Or.inr (Or.inr h)
        · rw [hs] at hnone; cases hnone
      exact core_failure_default env now fs s st hcore

theorem rotation_count_le (env : RotationEnv) (now : Int) (s : RotationStore)
    (hne : activeAliasesById s.email_aliases ≠ []) :
    (((getNextPaymentEmail env now noFailure s).2.rotation_state.map
        RotationState.order_count).getD 0) ≤ ORDERS_PER_ROTATION := by
  cases hr : activeAliasesById s.email_aliases with
  | nil => exact absurd hr hne
  | cons a0 rest =>
    unfold getNextPaymentEmail
    have hgs : noFailure.failGetState = false := rfl
    have hins : noFailure.failInsertState = false := rfl
    rw [hgs]
    simp only [Bool.false_eq_true, if_false]
    cases hs : s.rotation_state with
    | none =>
      rw [hins]
      simp only [Bool.false_eq_true, if_false]
      obtain ⟨a, cnt, heq, hle⟩ := core_success_state env now
        { s with rotation_state := some initialRotationState } initialRotationState a0 rest hr
      rw [heq]
      simpa using hle
    | some st =>
      obtain ⟨a, cnt, heq, hle⟩ := core_success_state env now s st a0 rest hr
      rw [heq]
      simpa using hle

/-- Claim C2: for every notification whose parsed reference token resolves
to an order in an open status and whose parsed amount is within one percent
of the amount of that order (tolerance computed from the order amount), the
matching engine returns that order with confidence 100 and match type
reference_and_amount, whatever else the ledger contains. -/
theorem reference_tier_full_confidence (db : Ledger) (now : Int) (p : PaymentData)
    (r : String) (o : Order) (c : Nat)
    (href : p.referenceCode = some r) (hr : r ≠ "")
    (hc : p.amountCents = some c)
    (hfound : sqlFindByReferenceOpen db r = some o)
    (htol : 100 * Nat.dist o.amount_cents c ≤ o.amount_cents) :
    matchPaymentToOrder db now p =
      { order := some o, confidence := 100, matchType := "reference_and_amount",
        count := none } := by
  unfold matchPaymentToOrder matchTierRef
  rw [href]
  simp only [truthyStr, hr, decide_True]
  simp only [Option.getD_some, hfound, hc]
  simp only [withinOnePercent, htol, decide_True, if_true]
  simp [hr]

lemma mem_of_byCreatedDesc_head (l : List Order) (o : Order)
    (h : (byCreatedDesc l).head? = some o) : o ∈ l := by
  have : o ∈ byCreatedDesc l := by
    cases hb : byCreatedDesc l with
    | nil => rw [hb] at h; cases h
    | cons a t =>
      rw [hb] at h
      simp only [List.head?_cons, Option.some.injEq] at h
      rw [h] at hb ⊢
      exact List.mem_cons_self _ _
  exact (List.mem_insertionSort _).mp this

lemma exists_recent_head (db : Ledger) (c : Nat) (since : Int)
    (h : 2 ≤ sqlCountByAmountRecentOpen db c since) :
    ∃ o, sqlFindByAmountRecentOpen db c since = some o := by
  unfold sqlFindByAmountRecentOpen
  unfold sqlCountByAmountRecentOpen at h
  cases hb : (byCreatedDesc (db.orders.filter (recentAmountPred c since))).head? with
  | none =>
    rw [List.head?_eq_none_iff] at hb
    have hlen := List.length_insertionSort
      (fun a b => b.created_at ≤ a.created_at) (db.orders.filter (recentAmountPred c since))
    unfold byCreatedDesc at hb
    rw [hb] at hlen
    simp at hlen
    omega
  | some o => exact ⟨o, rfl⟩

/-- Claim C3: for every notification with a parsed nonzero amount on which
the reference tier and the email tier yield nothing, if two or more open
orders carry exactly that amount inside the thirty-minute window, the
matching engine returns the ambiguity result with a null order, confidence
50 and match type multiple_matches, and does not fall through to the
amount-only tier. -/
theorem recency_tier_ambiguity_signal (db : Ledger) (now : Int) (p : PaymentData) (c : Nat)
    (hc : p.amountCents = some c) (hc0 : c ≠ 0)
    (h1 : matchTierRef db p = none)
    (h2 : matchTierEmail db p = none)
    (hcount : 2 ≤ sqlCountByAmountRecentOpen db c (now - 30 * 60 * 1000)) :
    matchPaymentToOrder db now p =
      { order := none, confidence := 50, matchType := "multiple_matches",
        count := some (sqlCountByAmountRecentOpen db c (now - 30 * 60 * 1000)) } := by
  unfold matchPaymentToOrder
  rw [h1, h2]
  unfold matchTierRecent
  rw [hc]
  simp only [truthyNat, hc0, decide_True, if_true, Option.getD_some]
  obtain ⟨o, ho⟩ := exists_recent_head db c (now - 30 * 60 * 1000) hcount
  rw [ho]
  have hne1 : sqlCountByAmountRecentOpen db c (now - 30 * 60 * 1000) ≠ 1 := by omega
  norm_num at hne1 ⊢
  simp [hc0, hne1]

lemma matchTierRef_order_open (db : Ledger) (p : PaymentData) (r : MatchResult)
    (o : Order) (h : matchTierRef db p = some r) (ho : r.order = some o) :
    isOpenStatus o.status = true := by
  unfold matchTierRef at h
  split at h
  · cases hf : sqlFindByReferenceOpen db (p.referenceCode.getD "") with
    | none => rw [hf] at h; cases h
    | some o1 =>
      rw [hf] at h
      dsimp only at h
      by_cases hw : withinOnePercent o1.amount_cents (p.amountCents.getD 0) = true
      · rw [if_pos hw] at h
        cases h
        simp only [Option.some.injEq] at ho
        subst ho
        unfold sqlFindByReferenceOpen at hf
        have := List.find?_some hf
        simp only [Bool.and_eq_true] at this
        exact this.2
      · rw [if_neg hw] at h; cases h
  · cases h

lemma matchTierEmail_order_open (db : Ledger) (p : PaymentData) (r : MatchResult)
    (o : Order) (h : matchTierEmail db p = some r) (ho : r.order = some o) :
    isOpenStatus o.status = true := by
  unfold matchTierEmail at h
  split at h
  · cases hf : sqlFindByAmountEmailOpen db (p.amountCents.getD 0) (p.senderEmail.getD "") with
    | none => rw [hf] at h; cases h
    | some o1 =>
      rw [hf] at h
      dsimp only at h
      cases h
      simp only [Option.some.injEq] at ho
      subst ho
      unfold sqlFindByAmountEmailOpen at hf
      have hmem := mem_of_byCreatedDesc_head _ _ hf
      have := (List.mem_filter.mp hmem).2
      simp only [Bool.and_eq_true] at this
      exact this.2
  · cases h

lemma matchTierRecent_order_open (db : Ledger) (now : Int) (p : PaymentData)
    (r : MatchResult) (o : Order) (h : matchTierRecent db now p = some r)
    (ho : r.order = some o) : isOpenStatus o.status = true := by
  unfold matchTierRecent at h
  split at h
  · cases hf : sqlFindByAmountRecentOpen db (p.amountCents.getD 0) (now - 30 * 60 * 1000) with
    | none => rw [hf] at h; cases h
    | some o1 =>
      rw [hf] at h
      dsimp only at h
      by_cases hn : sqlCountByAmountRecentOpen db (p.amountCents.getD 0)
          (now - 30 * 60 * 1000) = 1
      · rw [if_pos hn] at h
        cases h
        simp only [Option.some.injEq] at ho
        subst ho
        unfold sqlFindByAmountRecentOpen at hf
        have hmem := mem_of_byCreatedDesc_head _ _ hf
        have := (List.mem_filter.mp hmem).2
        unfold recentAmountPred at this
        simp only [Bool.and_eq_true] at this
        exact this.1.2
      · rw [if_neg hn] at h
        cases h
        cases ho
  · cases h

lemma matchTierAmount_order_open (db : Ledger) (p : PaymentData) (r : MatchResult)
    (o : Order) (h : matchTierAmount db p = some r) (ho : r.order = some o) :
    isOpenStatus o.status = true := by
  unfold matchTierAmount at h
  split at h
  · cases hf : sqlFindByAmountOpen db (p.amountCents.getD 0) with
    | none => rw [hf] at h; cases h
    | some o1 =>
      rw [hf] at h
      dsimp only at h
      cases h
      simp only [Option.some.injEq] at ho
      subst ho
      unfold sqlFindByAmountOpen at hf
      have hmem := mem_of_byCreatedDesc_head _ _ hf
      have := (List.mem_filter.mp hmem).2
      simp only [Bool.and_eq_true] at this
      exact this.2
  · cases h

lemma matched_order_open (db : Ledger) (now : Int) (p : PaymentData) (o : Order)
    (h : (matchPaymentToOrder db now p).order = some o) :
    isOpenStatus o.status = true := by
  unfold matchPaymentToOrder at h
  cases h1 : matchTierRef db p with
  | some r => rw [h1] at h; exact matchTierRef_order_open db p r o h1 h
  | none =>
    rw [h1] at h
    cases h2 : matchTierEmail db p with
    | some r => rw [h2] at h; exact matchTierEmail_order_open db p r o h2 h
    | none =>
      rw [h2] at h
      cases h3 : matchTierRecent db now p with
      | some r => rw [h3] at h; exact matchTierRecent_order_open db now p r o h3 h
      | none =>
        rw [h3] at h
        cases h4 : matchTierAmount db p with
        | some r => rw [h4] at h; exact matchTierAmount_order_open db p r o h4 h
        | none => rw [h4] at h; cases h

lemma webhook_sets_paid (db : Ledger) (now : Int) (b : WebhookBody) (o : Order)
    (hf : webhookFindOrder db b = some o) :
    ∀ x ∈ (paymentConfirmed db now b).1.orders, x.id = o.id →
      x.status = OrderStatus.paid := by
  unfold paymentConfirmed
  rw [hf]
  dsimp only
  intro x hx hid
  obtain ⟨y, hy, rfl⟩ := List.mem_map.mp hx
  by_cases hyid : y.id = o.id
  · simp [hyid]
  · rw [if_neg hyid] at hid ⊢
    exact absurd hid hyid

/-- Claim C4, amended: for every match result that resolves an order with
confidence at least 50 and below 70 the disposition step leaves the orders
table untouched, appends the needs-review audit event and raises the warning
operator alert, recording nothing as unmatched; the ambiguous
multiple_matches result, whose order is null, instead falls to the unmatched
branch and is recorded as an unmatched payment with an error alert. -/
theorem review_band_disposition (emailEnabled : Bool) (db : Ledger) (now : Int)
    (p : PaymentData) :
    (∀ o, (matchPaymentToOrder db now p).order = some o →
      50 ≤ (matchPaymentToOrder db now p).confidence →
      (matchPaymentToOrder db now p).confidence < 70 →
      (processPayment emailEnabled db now p).ledger = db ∧
      (processPayment emailEnabled db now p).effects =
        [PayEffect.insertEvent o.id "payment_needs_review",
         PayEffect.adminAlert "warning" "Payment Needs Review"] ∧
      (processPayment emailEnabled db now p).needsReview = true ∧
      (processPayment emailEnabled db now p).unmatched = false) ∧
    ((matchPaymentToOrder db now p).order = none →
      (processPayment emailEnabled db now p).effects =
        [PayEffect.insertUnmatched (matchPaymentToOrder db now p).matchType,
         PayEffect.adminAlert "error" "Unmatched Payment"] ∧
      (processPayment emailEnabled db now p).ledger = db ∧
      (processPayment emailEnabled db now p).unmatched = true) := by
  unfold processPayment processPaymentWith
  constructor
  · intro o ho h50 h70
    rw [ho]
    dsimp only
    rw [if_neg (by omega), if_pos h50]
    exact ⟨rfl, rfl, rfl, rfl⟩
  · intro ho
    rw [ho]
    dsimp only [unmatchedOutcome]
    exact ⟨rfl, rfl, rfl⟩

/-- Claim C8: the cleanup transitions to cancelled exactly the orders that
are pending and created more than twenty-four hours before now, stamping
their update time, and returns every other row of the orders table, in
particular every awaiting_payment order however old, entirely unchanged. -/
theorem cleanup_cancels_exactly_expired_pending (now : Int) (db : Ledger) :
    ((cleanupExpiredOrders now db).1.orders.length = db.orders.length) ∧
    ∀ i (h1 : i < db.orders.length)
      (h2 : i < (cleanupExpiredOrders now db).1.orders.length),
      (((db.orders.get ⟨i, h1⟩).status = OrderStatus.pending ∧
          (db.orders.get ⟨i, h1⟩).created_at < now - 24 * 60 * 60 * 1000) →
        (cleanupExpiredOrders now db).1.orders.get ⟨i, h2⟩ =
          { db.orders.get ⟨i, h1⟩ with
              status := OrderStatus.cancelled, updated_at := now }) ∧
      (¬ ((db.orders.get ⟨i, h1⟩).status = OrderStatus.pending ∧
          (db.orders.get ⟨i, h1⟩).created_at < now - 24 * 60 * 60 * 1000) →
        (cleanupExpiredOrders now db).1.orders.get ⟨i, h2⟩ =
          db.orders.get ⟨i, h1⟩) := by
  refine ⟨by simp [cleanupExpiredOrders], ?_⟩
  intro i h1 h2
  constructor
  · intro hp
    simp only [List.get_eq_getElem] at hp ⊢
    simp only [cleanupExpiredOrders, List.getElem_map]
    rw [if_pos hp]
  · intro hp
    simp only [List.get_eq_getElem] at hp ⊢
    simp only [cleanupExpiredOrders, List.getElem_map]
    rw [if_neg hp]

/-- Claim C10: order creation stores the request amount through a threshold
heuristic; writing the request amount as h hundredths, the integer part is
h / 100, a value whose integer part is below one hundred is stored as the
rounded cent value h, and anything else is stored as the truncated integer
part; in particular a request amount of 99 yields 9900 cents and 150.75
yields 150 cents. -/
theorem order_amount_threshold_heuristic :
    (∀ h : Nat, (h / 100 < 100 → orderAmountCents h = h) ∧
      (100 ≤ h / 100 → orderAmountCents h = h / 100)) ∧
    orderAmountCents 9900 = 9900 ∧ orderAmountCents 15075 = 150 := by
  refine ⟨fun h => ⟨fun hlt => ?_, fun hge => ?_⟩, by decide, by decide⟩
  · simp [orderAmountCents, hlt]
  · rw [orderAmountCents, if_neg (by omega)]


/-- Claim C1, amended: after every selection against a nonempty active ring
the persisted order count is at most ORDERS_PER_ROTATION, reaching the
threshold exactly once before the next call rotates; from the state with
current alias A and count 20 over the ring A B C, the next selection
returns alias B and persists count 1 on B. -/
theorem rotation_persisted_count_bounded :
    (∀ env now s, activeAliasesById s.email_aliases ≠ [] →
      (((getNextPaymentEmail env now noFailure s).2.rotation_state.map
          RotationState.order_count).getD 0) ≤ ORDERS_PER_ROTATION) ∧
    ((getNextPaymentEmail rotEnv 0 noFailure rotStoreAt20).1.alias_id =
        some aliasFixB.id ∧
      (getNextPaymentEmail rotEnv 0 noFailure rotStoreAt20).2.rotation_state =
        some { current_alias_id := some aliasFixB.id, order_count := 1 }) :=
  ⟨fun env now s hne => rotation_count_le env now s hne, by decide, by decide⟩

/-- Counterexample to claim C1 as stated: from the state with current alias
A and count 19 over the ring A B C, the selection returns alias A, not B,
and persists count 20, which is not strictly below ORDERS_PER_ROTATION. -/
theorem rotation_counter_hits_threshold_cex :
    (getNextPaymentEmail rotEnv 0 noFailure rotStoreAt19).1.alias_id =
      some aliasFixA.id ∧
    (getNextPaymentEmail rotEnv 0 noFailure rotStoreAt19).2.rotation_state =
      some { current_alias_id := some aliasFixA.id, order_count := 20 } ∧
    ¬ (20 < ORDERS_PER_ROTATION) ∧
    ¬ ((getNextPaymentEmail rotEnv 0 noFailure rotStoreAt19).1.alias_id =
      some aliasFixB.id) := by decide

/-- Witness instantiating the count bound at a concrete store. -/
theorem rotation_persisted_count_bounded_witness :
    (((getNextPaymentEmail rotEnv 0 noFailure rotStoreAt19).2.rotation_state.map
        RotationState.order_count).getD 0) ≤ ORDERS_PER_ROTATION :=
  rotation_persisted_count_bounded.1 rotEnv 0 rotStoreAt19 (by decide)

/-- Witness instantiating the reference tier theorem at the spec example. -/
theorem reference_tier_full_confidence_witness :
    matchPaymentToOrder dbRef 1000000 payRef =
      { order := some ordRef, confidence := 100,
        matchType := "reference_and_amount", count := none } :=
  reference_tier_full_confidence dbRef 1000000 payRef "ORD-AB12CD" ordRef 299700
    rfl (by decide) rfl (by decide) (by decide)

/-- Witness instantiating the ambiguity theorem at two equal open orders. -/
theorem recency_tier_ambiguity_signal_witness :
    matchPaymentToOrder dbTwoEqual 1000000 payAmountOnly =
      { order := none, confidence := 50, matchType := "multiple_matches",
        count := some (sqlCountByAmountRecentOpen dbTwoEqual 500000
          (1000000 - 30 * 60 * 1000)) } :=
  recency_tier_ambiguity_signal dbTwoEqual 1000000 payAmountOnly 500000
    rfl (by decide) (by decide) (by decide) (by decide)

/-- Counterexample to claim C4 as stated: on the ambiguous multiple_matches
result the disposition step records an unmatched payment with an error
alert and appends no needs-review event. -/
theorem ambiguous_match_logged_unmatched_cex :
    (matchPaymentToOrder dbTwoEqual 1000000 payAmountOnly).confidence = 50 ∧
    (matchPaymentToOrder dbTwoEqual 1000000 payAmountOnly).matchType =
      "multiple_matches" ∧
    (processPayment false dbTwoEqual 1000000 payAmountOnly).needsReview = false ∧
    (processPayment false dbTwoEqual 1000000 payAmountOnly).unmatched = true ∧
    (processPayment false dbTwoEqual 1000000 payAmountOnly).effects =
      [PayEffect.insertUnmatched "multiple_matches",
       PayEffect.adminAlert "error" "Unmatched Payment"] := by decide

/-- Witness instantiating the review band at a resolved amount-only match. -/
theorem review_band_disposition_witness :
    (processPayment false dbStale 100000000 payStale).ledger = dbStale ∧
    (processPayment false dbStale 100000000 payStale).effects =
      [PayEffect.insertEvent ordStale.id "payment_needs_review",
       PayEffect.adminAlert "warning" "Payment Needs Review"] ∧
    (processPayment false dbStale 100000000 payStale).needsReview = true ∧
    (processPayment false dbStale 100000000 payStale).unmatched = false :=
  (review_band_disposition false dbStale 100000000 payStale).1 ordStale
    (by decide) (by decide) (by decide)

/-- Claim C5, amended: the transition to paid is an unconditional update
keyed on the order id with no status guard; the auto-confirm path only acts
on an order that the matching queries read in an open status, while the
payment-confirmed webhook looks its order up without any status filter and
sets it to paid whatever status it held, not a no-op. -/
theorem paid_transition_unguarded :
    (∀ db now p o, (matchPaymentToOrder db now p).order = some o →
      isOpenStatus o.status = true) ∧
    (∀ db now b o, webhookFindOrder db b = some o →
      ∀ x ∈ (paymentConfirmed db now b).1.orders, x.id = o.id →
        x.status = OrderStatus.paid) :=
  ⟨fun db now p o h => matched_order_open db now p o h,
   fun db now b o hf => webhook_sets_paid db now b o hf⟩

/-- Counterexample to claim C5 as stated: the webhook applied to an order
already completed rewrites it to paid instead of leaving it unchanged. -/
theorem webhook_pays_completed_order_cex :
    ordCompleted.status = OrderStatus.completed ∧
    isOpenStatus ordCompleted.status = false ∧
    (paymentConfirmed dbCompleted 777 wbConfirm).1.orders.map Order.status =
      [OrderStatus.paid] ∧
    (paymentConfirmed dbCompleted 777 wbConfirm).1 ≠ dbCompleted := by decide

/-- Witness instantiating both halves of the unguarded-transition theorem. -/
theorem paid_transition_unguarded_witness :
    isOpenStatus ordRef.status = true ∧
    ({ ordCompleted with status := OrderStatus.paid, paid_at := some 777, updated_at := 777 } : Order).status = OrderStatus.paid :=
  ⟨paid_transition_unguarded.1 dbRef 1000000 payRef ordRef (by decide),
   paid_transition_unguarded.2 dbCompleted 777 wbConfirm ordCompleted (by decide)
     ({ ordCompleted with status := OrderStatus.paid, paid_at := some 777, updated_at := 777 }) (by decide) (by decide)⟩

/-- Claim C6: evaluation at the failing input. The classification accepts
the text, but the amount regex, whose integer part matches one to three
digits with optional comma groups, captures only 123 from the ungrouped
amount 1234.56, so the parser returns 12300 cents instead of the 123456 the
claim states; the same amount written with its thousands separator is
extracted in full. -/
theorem parser_truncates_ungrouped_amount :
    (parseInteracEmail interacUngrouped).isInterac = true ∧
    (parseInteracEmail interacUngrouped).amountCents = some 12300 ∧
    (parseInteracEmail interacGrouped).amountCents = some 123456 ∧
    (12300 : Nat) ≠ 123456 := by decide

/-- Witness instantiating self-healing at a deactivated current alias. -/
theorem rotation_self_healing_witness :
    (getNextPaymentEmail rotEnv 0 noFailure rotStoreStale).1.alias_id =
      some aliasFixA.id ∧
    (getNextPaymentEmail rotEnv 0 noFailure rotStoreStale).1.email =
      aliasFixA.alias_email ∧
    (getNextPaymentEmail rotEnv 0 noFailure rotStoreStale).2.rotation_state =
      some { current_alias_id := some aliasFixA.id, order_count := 1 } :=
  rotation_self_healing rotEnv 0 rotStoreStale 99 7 aliasFixA
    [aliasFixB, aliasFixC] (by decide) (by decide) (by decide) (by decide)

/-- Witness instantiating the cleanup frame theorem on one expired pending
order and one awaiting_payment order of the same age. -/
theorem cleanup_cancels_exactly_expired_pending_witness :
    ((cleanupExpiredOrders 200000000 dbCleanup).1.orders.get ⟨0, by decide⟩ =
      { ordOldPending with status := OrderStatus.cancelled, updated_at := 200000000 }) ∧
    ((cleanupExpiredOrders 200000000 dbCleanup).1.orders.get ⟨1, by decide⟩ =
      ordOldAwaiting) :=
  ⟨((cleanup_cancels_exactly_expired_pending 200000000 dbCleanup).2 0
      (by decide) (by decide)).1 (by decide),
   ((cleanup_cancels_exactly_expired_pending 200000000 dbCleanup).2 1
      (by decide) (by decide)).2 (by decide)⟩

/-- Counterexample to claim C9 as stated: when only the alias last-used
stamp write fails, the call still returns the default assignment but the
rotation state written just before the failure persists, so the state is
not left unchanged. -/
theorem rotation_failure_after_state_write_cex :
    (getNextPaymentEmail rotEnv 0 fsTouchOnly rotStoreAt5).1 =
      defaultAssignment rotEnv ∧
    rotStoreAt5.rotation_state =
      some { current_alias_id := some 1, order_count := 5 } ∧
    (getNextPaymentEmail rotEnv 0 fsTouchOnly rotStoreAt5).2.rotation_state =
      some { current_alias_id := some 1, order_count := 6 } ∧
    (getNextPaymentEmail rotEnv 0 fsTouchOnly rotStoreAt5).2.rotation_state ≠
      rotStoreAt5.rotation_state := by decide

/-- Witness instantiating the failure fallback at a failing state read. -/
theorem rotation_failure_returns_default_witness :
    (getNextPaymentEmail rotEnv 0 fsGetStateOnly rotStoreAt5).1 =
      defaultAssignment rotEnv :=
  rotation_failure_returns_default rotEnv 0 fsGetStateOnly rotStoreAt5
    (Or.inl (by decide))

/-- Witness instantiating the amount heuristic below the threshold. -/
theorem order_amount_threshold_heuristic_witness :
    orderAmountCents 150 = 150 :=
  (order_amount_threshold_heuristic.1 150).1 (by decide)


end DSPayment
